import Mathlib

/-!
# A verification development for the DeadBasic interpreter (`DeadBasic.py`)

This file is a shallow embedding of the execution engine of `DeadBasic.py`
(v0.4.5): the value store, the condition evaluator shared by IF and WHILE,
the command table, the control-context state machine and the
program-counter-driven file runner (`DeadBasic.run_file`).

Modelling conventions:
* Python's arbitrary-precision `int` is `ℤ`; Python's `float` is modelled
  exactly, as an integer fraction (`PyFloat`, interpreted in `ℚ` by
  `PyFloat.toRat`).  Every float value that the claims exercise (small
  decimal literals and their sums/differences/products/quotients) is
  exactly representable in binary64, so on those values the exact model
  agrees with the Python semantics; binary64 rounding of other values is
  not modelled.
* Program lines are modelled after lexing (`_detect_indent` + `shlex.split`):
  a line is an indent flag plus its word tokens, and a blank or comment line
  is a line with no tokens (exactly what `parse_tokens` in `run_file`
  produces for them).
* Host-level exceptions that are not `DeadBasicError` (`TypeError`,
  `IndexError`, `EOFError`, ...) are the `internal` error kind; the
  top-level driver prints them as `Internal error: ...`, and the TRY
  absorption records them as `Internal error: ...`.
* `print` appends one line to an output list; `input(prompt)` writes the
  prompt to the output list and pops the next line from an explicit stdin
  list, raising `EOFError` when the list is empty.
-/

namespace DeadBasic

/-! ## String helpers (ASCII fragments of `str.lower`, `str.strip`, `in`) -/

/-- ASCII `str.lower` on one character. -/
def lowerChar (c : Char) : Char :=
  if c.isUpper then Char.ofNat (c.toNat + 32) else c

/-- Python `str.lower` (ASCII; no claim exercises non-ASCII letters). -/
def pyLower (s : String) : String := String.mk (s.data.map lowerChar)

/-- Python `str.strip()` with no argument: remove leading and trailing
whitespace. -/
def pyStrip (s : String) : String :=
  String.mk ((s.data.dropWhile Char.isWhitespace).reverse.dropWhile
    Char.isWhitespace).reverse

/-- Python `c in s` for a single character. -/
def hasChar (s : String) (c : Char) : Bool := s.data.contains c

/-! ## Decimal representations (Python `str(int)` / `repr(float)`) -/

/-- The character for a decimal digit `n < 10` (`chr(48 + n)`). -/
def digitChar (n : Nat) : Char := Char.ofNat (48 + n)

/-- Digit characters of `n`, most significant first; `fuel ≥ n` suffices.
Empty for `n = 0`. -/
def natDigitsAux : Nat → Nat → List Char
  | 0, _ => []
  | _ + 1, 0 => []
  | fuel + 1, m + 1 => natDigitsAux fuel ((m + 1) / 10) ++ [digitChar ((m + 1) % 10)]

/-- Decimal representation of a natural number (Python `str` of a
nonnegative `int`). -/
def natRepr (n : Nat) : String :=
  if n = 0 then "0" else String.mk (natDigitsAux n n)

/-- Decimal representation of an integer (Python `str(int)`). -/
def intRepr (n : ℤ) : String :=
  if n < 0 then "-" ++ natRepr n.natAbs else natRepr n.toNat

/-- Decimal digits of the fractional part `r / d` (with `r < d`), produced
long-division style, stopping at remainder `0` or after `fuel` digits.
Python's `repr` of a float prints the shortest decimal that round-trips; on
exactly-representable short decimals (all that the claims exercise) that is
the exact expansion produced here. -/
def fracDigits : Nat → Nat → Nat → List Char
  | 0, _, _ => []
  | _ + 1, 0, _ => []
  | fuel + 1, r, d => digitChar (r * 10 / d) :: fracDigits fuel (r * 10 % d) d

/-! ## The exact model of Python floats -/

/-- The exact model of a Python `float`: an integer fraction
`num / den`.  Every constructor in this file keeps `den` positive.
Fractions are not reduced; all observations (`is_integer`, equality,
ordering, printing) are fraction-invariant. -/
structure PyFloat where
  num : ℤ
  den : ℤ
deriving DecidableEq

/-- The rational a `PyFloat` denotes. -/
def PyFloat.toRat (q : PyFloat) : ℚ := (q.num : ℚ) / (q.den : ℚ)

/-- `float(int)`. -/
def PyFloat.ofInt (n : ℤ) : PyFloat := ⟨n, 1⟩

/-- Exact float addition. -/
def PyFloat.add (a b : PyFloat) : PyFloat :=
  ⟨a.num * b.den + b.num * a.den, a.den * b.den⟩

/-- Exact float subtraction. -/
def PyFloat.sub (a b : PyFloat) : PyFloat :=
  ⟨a.num * b.den - b.num * a.den, a.den * b.den⟩

/-- Exact float multiplication. -/
def PyFloat.mul (a b : PyFloat) : PyFloat :=
  ⟨a.num * b.num, a.den * b.den⟩

/-- Exact float division (callers test for a zero divisor first, as the
source catches `ZeroDivisionError`); the sign is normalised into the
numerator to keep the denominator positive. -/
def PyFloat.div (a b : PyFloat) : PyFloat :=
  let n := a.num * b.den
  let d := a.den * b.num
  if d < 0 then ⟨-n, -d⟩ else ⟨n, d⟩

/-- Python `==` on two floats (exact; fraction-invariant). -/
def PyFloat.numEq (a b : PyFloat) : Bool := a.num * b.den = b.num * a.den

/-- Python `<` on two floats (exact; fraction-invariant, for positive
denominators). -/
def PyFloat.blt (a b : PyFloat) : Bool := a.num * b.den < b.num * a.den

/-- Python `<=` on two floats. -/
def PyFloat.ble (a b : PyFloat) : Bool := a.num * b.den ≤ b.num * a.den

/-- `value == 0` for a float. -/
def PyFloat.isZero (a : PyFloat) : Bool := a.num = 0

/-- Python `float.is_integer`: the denominator divides the numerator. -/
def PyFloat.isInteger (a : PyFloat) : Bool := Int.emod a.num a.den = 0

/-- Decimal representation of a float (`str(float)`): always contains a
decimal point, e.g. `4.0`, `4.5`, `-0.5`. -/
def floatRepr (q : PyFloat) : String :=
  let sign := if q.num < 0 then "-" else ""
  let na := q.num.natAbs
  let d := q.den.toNat
  let ip : Nat := na / d
  let r : Nat := na % d
  let ds := fracDigits 17 r d
  sign ++ natRepr ip ++ "." ++ (if ds.isEmpty then "0" else String.mk ds)

/-- The arithmetic-command output step
`print(int(result) if result.is_integer() else result)`: a whole result is
converted to `int` first (printing without a fractional part), any other
result prints as a float. -/
def formatResult (q : PyFloat) : String :=
  if q.isInteger then intRepr (Int.tdiv q.num q.den) else floatRepr q

/-! ## Values and the variable store -/

/-- A Python value stored in a DeadBasic variable or produced by
`_resolve`: an `int`, a `float` or a `str`. -/
inductive Value where
  | int (n : ℤ)
  | float (q : PyFloat)
  | str (s : String)
deriving DecidableEq

/-- One entry of `self.vars`: `{"type": ..., "value": ...}`. -/
structure VarEntry where
  vtype : String
  value : Value
deriving DecidableEq

/-- `self.vars` is a Python dict `name -> entry`; modelled as an
association list with dict update semantics (update in place keeps the
insertion position, a new key is appended). -/
abbrev Store := List (String × VarEntry)

/-- Dict lookup `self.vars[name]` / `name in self.vars`. -/
def Store.get? : Store → String → Option VarEntry
  | [], _ => none
  | (k, e) :: rest, name => if k = name then some e else Store.get? rest name

/-- Dict assignment `self.vars[name] = entry`. -/
def Store.set : Store → String → VarEntry → Store
  | [], name, entry => [(name, entry)]
  | (k, e) :: rest, name, entry =>
    if k = name then (k, entry) :: rest else (k, e) :: Store.set rest name entry

/-! ## Literal parsing (Python `int(str)` and `float(str)`) -/

/-- Accumulate the value of a digit string; `none` on the first non-digit. -/
def digitsToNatAux (acc : Nat) : List Char → Option Nat
  | [] => some acc
  | c :: cs => if c.isDigit then digitsToNatAux (acc * 10 + (c.toNat - 48)) cs else none

/-- Value of a nonempty all-digit string, else `none`. -/
def digitsToNat (cs : List Char) : Option Nat :=
  match cs with
  | [] => none
  | _ => digitsToNatAux 0 cs

/-- Value of a digit string that is already known to be all digits
(empty means `0`). -/
def natOfDigits (cs : List Char) : Nat :=
  cs.foldl (fun a c => a * 10 + (c.toNat - 48)) 0

/-- Python `int(s)`: surrounding whitespace stripped, optional sign, then a
nonempty run of decimal digits.  Underscore grouping and non-ASCII digits
are not modelled (no claim exercises them). -/
def pyIntParse (s : String) : Option ℤ :=
  match (pyStrip s).data with
  | [] => none
  | c :: cs =>
    if c = '-' then (digitsToNat cs).map (fun n => -(n : ℤ))
    else if c = '+' then (digitsToNat cs).map (fun n => (n : ℤ))
    else (digitsToNat (c :: cs)).map (fun n => (n : ℤ))

/-- Python `float(s)` on decimal forms: surrounding whitespace stripped,
optional sign, digits with at most one point and at least one digit
(`"4"`, `"4.5"`, `".5"`, `"5."`).  Exponent, `inf` and `nan` forms are not
modelled (no claim exercises them). -/
def pyFloatParse (s : String) : Option PyFloat :=
  let t := pyStrip s
  let sb : ℤ × List Char :=
    match t.data with
    | c :: cs => if c = '-' then (-1, cs) else if c = '+' then (1, cs) else (1, t.data)
    | [] => (1, [])
  let sgn := sb.1
  let body := sb.2
  if body.isEmpty then none
  else
    match body.splitOn '.' with
    | [ip] =>
      if ip ≠ [] ∧ ip.all Char.isDigit then some ⟨sgn * (natOfDigits ip : ℤ), 1⟩
      else none
    | [ip, fp] =>
      if ip = [] ∧ fp = [] then none
      else if ip.all Char.isDigit ∧ fp.all Char.isDigit then
        some ⟨sgn * ((natOfDigits ip : ℤ) * 10 ^ fp.length + (natOfDigits fp : ℤ)),
          (10 : ℤ) ^ fp.length⟩
      else none
    | _ => none

/-! ## Value helpers (`_resolve`, `_to_number`, `_truthy`, `str()`) -/

/-- `token[1:-1]` when the token is wrapped in matching quote characters,
else the raw token — the tail of `_resolve`. -/
def quoteOrRaw (token : String) : Value :=
  let cs := token.data
  if 2 ≤ cs.length ∧ cs.head? = cs.getLast? ∧
      (cs.head? = some '"' ∨ cs.head? = some (Char.ofNat 39)) then
    .str (String.mk (cs.drop 1).dropLast)
  else .str token

/-- `DeadBasic._resolve`: variable lookup first, then a float literal when
the token contains a point, else an int literal, else a quoted or raw
string. -/
def resolve (vars : Store) (token : String) : Value :=
  match vars.get? token with
  | some e => e.value
  | none =>
    if hasChar token '.' then
      match pyFloatParse token with
      | some q => .float q
      | none => quoteOrRaw token
    else
      match pyIntParse token with
      | some n => .int n
      | none => quoteOrRaw token

/-- Equality on `Except` results is decidable componentwise. -/
instance instDecEqExcept {ε α : Type} [DecidableEq ε] [DecidableEq α] :
    DecidableEq (Except ε α) := fun a b =>
  match a, b with
  | .ok x, .ok y =>
    if h : x = y then .isTrue (by rw [h]) else .isFalse (by simp [h])
  | .error x, .error y =>
    if h : x = y then .isTrue (by rw [h]) else .isFalse (by simp [h])
  | .ok _, .error _ => .isFalse (by simp)
  | .error _, .ok _ => .isFalse (by simp)

/-- The two `DeadBasicError` kinds plus the internal kind for host-level
exceptions that are not `DeadBasicError`. -/
inductive DBErr where
  | syn (msg : String)
  | rt (msg : String)
  | internal (msg : String)
deriving DecidableEq

/-- `DeadBasic._fmt`. -/
def fmt (file : String) (lineNo : Nat) (msg : String) : String :=
  "[" ++ file ++ ":line " ++ natRepr lineNo ++ "] " ++ msg

/-- `DeadBasic._to_number`: numbers pass through as floats; strings must
parse cleanly (float when they contain a point, else int); anything else is
a Runtime error naming `label`. -/
def toNumber (file : String) (v : Value) (lineNo : Nat) (label : String) :
    Except DBErr PyFloat :=
  match v with
  | .int n => .ok (PyFloat.ofInt n)
  | .float q => .ok q
  | .str s =>
    let parsed : Option PyFloat :=
      if hasChar s '.' then pyFloatParse s
      else (pyIntParse s).map PyFloat.ofInt
    match parsed with
    | some q => .ok q
    | none => .error (.rt (fmt file lineNo (label ++ " is not numeric")))

/-- `DeadBasic._truthy` (the `None` branch is unreachable here: no stored
or resolved value is Python `None`). -/
def truthy : Value → Bool
  | .int n => n ≠ 0
  | .float q => !q.isZero
  | .str s => s ≠ ""

/-- Python `==` on the values `_resolve` can produce: `int` and `float`
compare numerically, strings compare as strings, and a string never equals
a number. -/
def pyEq : Value → Value → Bool
  | .int m, .int n => m = n
  | .int m, .float q => PyFloat.numEq (PyFloat.ofInt m) q
  | .float q, .int m => PyFloat.numEq q (PyFloat.ofInt m)
  | .float p, .float q => PyFloat.numEq p q
  | .str a, .str b => a = b
  | .str _, _ => false
  | _, .str _ => false

/-- Python `str()` of a stored value (used by `printtext` and
`showvars`). -/
def pyStr : Value → String
  | .int n => intRepr n
  | .float q => floatRepr q
  | .str s => s

/-! ## The condition evaluator (`_eval_condition_tokens`) -/

/-- `DeadBasic._eval_condition_tokens`, shared by IF and WHILE: `not
<value>` (checked first, on the lower-cased head token), or `<lhs> <op>
<rhs>`; `=`/`!=` compare resolved values directly, the ordering operators
coerce both sides through `_to_number` before the operator is even
recognised, and unknown operators are a Syntax error. -/
def evalCondTokens (file : String) (vars : Store) (tokens : List String)
    (lineNo : Nat) : Except DBErr Bool :=
  match tokens with
  | [] => .error (.syn (fmt file lineNo "condition required"))
  | t0 :: rest =>
    if pyLower t0 = "not" then
      match rest with
      | [v] => .ok (!truthy (resolve vars v))
      | _ => .error (.syn (fmt file lineNo "\x27not\x27 expects exactly one value"))
    else
      match t0 :: rest with
      | [lhs, op, rhs] =>
        let lhsVal := resolve vars lhs
        let rhsVal := resolve vars rhs
        if op = "=" then .ok (pyEq lhsVal rhsVal)
        else if op = "!=" then .ok (!pyEq lhsVal rhsVal)
        else
          match toNumber file lhsVal lineNo "left side" with
          | .error e => .error e
          | .ok lnum =>
            match toNumber file rhsVal lineNo "right side" with
            | .error e => .error e
            | .ok rnum =>
              if op = "<" then .ok (lnum.blt rnum)
              else if op = ">" then .ok (rnum.blt lnum)
              else if op = "<=" then .ok (lnum.ble rnum)
              else if op = ">=" then .ok (rnum.ble lnum)
              else .error (.syn (fmt file lineNo
                ("unknown operator \x27" ++ op ++ "\x27")))
      | _ => .error (.syn (fmt file lineNo
          "condition must be: <lhs> <op> <rhs> or \x27not <value>\x27"))

/-! ## Control contexts and interpreter state -/

/-- `self.if_ctx`: `{"cond_true": bool, "in_else": bool}`. -/
structure IfCtx where
  cond_true : Bool
  in_else : Bool
deriving DecidableEq

/-- `self.while_ctx`: `{"start_pc": int, "cond_tokens": list[str]}`. -/
structure WhileCtx where
  start_pc : Nat
  cond_tokens : List String
deriving DecidableEq

/-- `self.try_ctx`:
`{"has_error": bool, "in_catch": bool, "err_name": str|None, "err_msg": str|None}`. -/
structure TryCtx where
  has_error : Bool
  in_catch : Bool
  err_name : Option String
  err_msg : Option String
deriving DecidableEq

/-- The mutable fields of a `DeadBasic` instance, plus the explicit stdin
and stdout of the process. -/
structure St where
  vars : Store
  if_ctx : Option IfCtx
  while_ctx : Option WhileCtx
  try_ctx : Option TryCtx
  current_file : String
  stdin : List String
  output : List String
deriving DecidableEq

/-- Result of one statement (declaration or command): either the updated
state, or a raised error together with the state at the moment of the
raise (Python exceptions do not roll back effects already performed). -/
abbrev CmdRes := Except (DBErr × St) St

/-- Raise an error from state `st` with no further effects. -/
def throwE (st : St) (e : DBErr) : CmdRes := .error (e, st)

/-- Append one printed line (`print(...)`). -/
def emit (st : St) (line : String) : St :=
  { st with output := st.output ++ [line] }

/-! ## Commands (`cmd_*`) -/

/-- `DeadBasic.cmd_input`: prompt, read a line, parse by the requested
type, then assign unconditionally (no type-mismatch check against an
existing variable).  `input()` on exhausted stdin raises `EOFError`. -/
def cmd_input (st : St) (args : List String) (lineNo : Nat) : CmdRes :=
  match args with
  | [vtype, name] =>
    let prompt := "Enter " ++ vtype ++ " " ++ name ++ ": "
    match st.stdin with
    | [] => throwE (emit st prompt) (.internal "EOF when reading a line")
    | raw :: rest =>
      let st1 : St := { emit st prompt with stdin := rest }
      if vtype = "int" then
        match pyIntParse raw with
        | some v => .ok { st1 with vars := st1.vars.set name ⟨"int", .int v⟩ }
        | none => throwE st1 (.rt (fmt st1.current_file lineNo
            ("\x27" ++ raw ++ "\x27 is not an integer")))
      else if vtype = "long" then
        match pyIntParse raw with
        | some v => .ok { st1 with vars := st1.vars.set name ⟨"long", .int v⟩ }
        | none => throwE st1 (.rt (fmt st1.current_file lineNo
            ("\x27" ++ raw ++ "\x27 is not a long integer")))
      else if vtype = "double" then
        match pyFloatParse raw with
        | some v => .ok { st1 with vars := st1.vars.set name ⟨"double", .float v⟩ }
        | none => throwE st1 (.rt (fmt st1.current_file lineNo
            ("\x27" ++ raw ++ "\x27 is not a double")))
      else if vtype = "str" then
        .ok { st1 with vars := st1.vars.set name ⟨"str", .str raw⟩ }
      else
        throwE st1 (.syn (fmt st1.current_file lineNo ("unknown type: " ++ vtype)))
  | _ => throwE st (.syn (fmt st.current_file lineNo "input needs: <type> <varname>"))

/-- `DeadBasic.cmd_printtext`: each token is replaced by `str(value)` when
it names a variable, tokens joined with single spaces. -/
def cmd_printtext (st : St) (args : List String) (lineNo : Nat) : CmdRes :=
  if args.isEmpty then
    throwE st (.syn (fmt st.current_file lineNo "printtext needs text or var names"))
  else
    let out := args.map (fun tok =>
      match st.vars.get? tok with
      | some e => pyStr e.value
      | none => tok)
    .ok (emit st (String.intercalate " " out))

/-- `DeadBasic.cmd_showvars`. -/
def cmd_showvars (st : St) (_args : List String) (_lineNo : Nat) : CmdRes :=
  if st.vars.isEmpty then .ok (emit st "(no vars)")
  else
    .ok { st with output := st.output ++ st.vars.map (fun p =>
      p.2.vtype ++ " " ++ p.1 ++ " = " ++ pyStr p.2.value) }

/-- `DeadBasic.cmd_openfile`: clears the three control contexts, then
recurses into `run_file`.  The filesystem is modelled as empty, so the
recursive `run_file` always fails its existence check (no claim exercises
a successful include); note the contexts are already cleared when the
error is raised. -/
def cmd_openfile (st : St) (args : List String) (lineNo : Nat) : CmdRes :=
  match args with
  | [] => throwE st (.syn (fmt st.current_file lineNo "openfile needs a filename"))
  | p :: _ =>
    let st2 : St := { st with if_ctx := none, while_ctx := none, try_ctx := none }
    throwE st2 (.rt (fmt st2.current_file 0 ("file not found: " ++ p)))

/-- `DeadBasic.cmd_add`. -/
def cmd_add (st : St) (args : List String) (lineNo : Nat) : CmdRes :=
  match args with
  | [x, y] =>
    match toNumber st.current_file (resolve st.vars x) lineNo "first argument" with
    | .error e => throwE st e
    | .ok a =>
      match toNumber st.current_file (resolve st.vars y) lineNo "second argument" with
      | .error e => throwE st e
      | .ok b => .ok (emit st (formatResult (a.add b)))
  | _ => throwE st (.syn (fmt st.current_file lineNo "add needs exactly 2 numbers"))

/-- Largest `k ≤ bound` with `k * k ≤ n` (structural linear search). -/
def natSqrtAux (n : Nat) : Nat → Nat
  | 0 => 0
  | k + 1 => if (k + 1) * (k + 1) ≤ n then k + 1 else natSqrtAux n k

/-- Floor square root of a natural number. -/
def pyNatSqrt (n : Nat) : Nat := natSqrtAux n n

/-- The model of `math.sqrt` on a nonnegative float: writing the input as
`n / d`, its exact square root is `sqrt (n * d) / d` whenever the input is
the square of a rational (all that any claim evaluates); for other inputs
`math.sqrt` returns a binary64 approximation that is not representable in
this exact model, and the embedding falls back to the floor square root
(no claim depends on that value). -/
def pySqrt (q : PyFloat) : PyFloat :=
  ⟨(pyNatSqrt (q.num * q.den).toNat : ℤ), q.den⟩

/-- `DeadBasic.cmd_squareroot`: only an argument-count upper bound is
validated; with zero arguments `args[0]` raises an unguarded
`IndexError`; `math.sqrt` of a negative raises `ValueError` (not a
`DeadBasicError`). -/
def cmd_squareroot (st : St) (args : List String) (lineNo : Nat) : CmdRes :=
  if args.length > 1 then
    throwE st (.syn (fmt st.current_file lineNo "Square root only needs 1 number"))
  else
    match args with
    | [] => throwE st (.internal "list index out of range")
    | x :: _ =>
      match toNumber st.current_file (resolve st.vars x) lineNo "first argument" with
      | .error e => throwE st e
      | .ok a =>
        if a.num < 0 then throwE st (.internal "math domain error")
        else .ok (emit st (formatResult (pySqrt a)))

/-- `DeadBasic.cmd_subt`. -/
def cmd_subt (st : St) (args : List String) (lineNo : Nat) : CmdRes :=
  match args with
  | [x, y] =>
    match toNumber st.current_file (resolve st.vars x) lineNo "first argument" with
    | .error e => throwE st e
    | .ok a =>
      match toNumber st.current_file (resolve st.vars y) lineNo "second argument" with
      | .error e => throwE st e
      | .ok b => .ok (emit st (formatResult (a.sub b)))
  | _ => throwE st (.syn (fmt st.current_file lineNo "Subtract needs exactly 2 numbers"))

/-- `DeadBasic.cmd_div` (`ZeroDivisionError` is converted to the Runtime
error in place). -/
def cmd_div (st : St) (args : List String) (lineNo : Nat) : CmdRes :=
  match args with
  | [x, y] =>
    match toNumber st.current_file (resolve st.vars x) lineNo "first argument" with
    | .error e => throwE st e
    | .ok a =>
      match toNumber st.current_file (resolve st.vars y) lineNo "second argument" with
      | .error e => throwE st e
      | .ok b =>
        if b.isZero then
          throwE st (.rt (fmt st.current_file lineNo "You cannot divide by 0."))
        else .ok (emit st (formatResult (a.div b)))
  | _ => throwE st (.syn (fmt st.current_file lineNo "Divide needs exactly 2 numbers"))

/-- `DeadBasic.cmd_multiply`. -/
def cmd_multiply (st : St) (args : List String) (lineNo : Nat) : CmdRes :=
  match args with
  | [x, y] =>
    match toNumber st.current_file (resolve st.vars x) lineNo "first argument" with
    | .error e => throwE st e
    | .ok a =>
      match toNumber st.current_file (resolve st.vars y) lineNo "second argument" with
      | .error e => throwE st e
      | .ok b => .ok (emit st (formatResult (a.mul b)))
  | _ => throwE st (.syn (fmt st.current_file lineNo "Multiply needs exactly 2 numbers"))

/-- The interpreter version string. -/
def VERSION : String := "0.4.5"

/-- The body of the `help` static method (a parameterless function; see
`callCommand` for why dispatch never actually reaches this body). -/
def cmd_help (st : St) : CmdRes :=
  .ok { st with output := st.output ++ [
    "Welcome to Deadbasic Version: " ++ VERSION,
    "Commands are as followed.",
    "Printtext: Prints anything following that line \n showvars: Shows all varitables in your active file and what they are set to. \n Openfile: Opens any .ba file. \n add: Adds 2 numbers together \n subt: Subtracts 2 numbers \n div: Divides 2 numbers \n times: Multiply 2 numbers together \n sqrt: Squares the number provided",
    "Flow: if/else/endif, while/endwhile, try/catch [errVar]/endtry",
    "Copyright 2025. License under MIT please see https://github.com/TheRamDev/DeadBasic-coding-language/blob/main/LICENSE for license info "] }

/-- Python `value_str.strip(quote)` with the double-quote character:
removes every leading and trailing double-quote character. -/
def stripDoubleQuotes (s : String) : String :=
  String.mk (((s.data.dropWhile (fun c => c = '"')).reverse.dropWhile
    (fun c => c = '"')).reverse)

/-- The type dispatch of `cmd_declare` on the joined value words:
`int`/`long` parse as integers, `double` as a float, `str` strips
surrounding double quotes; parse failures are Runtime errors. -/
def declParse (file vtype valueStr : String) (lineNo : Nat) : Except DBErr Value :=
  if vtype = "int" ∨ vtype = "long" then
    match pyIntParse valueStr with
    | some v => .ok (.int v)
    | none => .error (.rt (fmt file lineNo
        ("\x27" ++ valueStr ++ "\x27 is not an integer")))
  else if vtype = "double" then
    match pyFloatParse valueStr with
    | some v => .ok (.float v)
    | none => .error (.rt (fmt file lineNo
        ("\x27" ++ valueStr ++ "\x27 is not a double")))
  else if vtype = "str" then .ok (.str (stripDoubleQuotes valueStr))
  else .error (.syn (fmt file lineNo ("unknown type: " ++ vtype)))

/-- `DeadBasic.cmd_declare`: parse the joined value words by type, then
fail on a type mismatch with an existing variable of another type (the
store is untouched at that point), else assign. -/
def cmd_declare (st : St) (vtype : String) (args : List String) (lineNo : Nat) :
    CmdRes :=
  match args with
  | name :: v0 :: vrest =>
    match declParse st.current_file vtype (String.intercalate " " (v0 :: vrest)) lineNo with
    | .error e => throwE st e
    | .ok val =>
      match st.vars.get? name with
      | some old =>
        if old.vtype ≠ vtype then
          throwE st (.rt (fmt st.current_file lineNo
            ("type mismatch: " ++ name ++ " is " ++ old.vtype ++ ", not " ++ vtype)))
        else .ok { st with vars := st.vars.set name ⟨vtype, val⟩ }
      | none => .ok { st with vars := st.vars.set name ⟨vtype, val⟩ }
  | _ => throwE st (.syn (fmt st.current_file lineNo (vtype ++ " needs: <name> <value>")))

/-! ## The command table and Python call semantics -/

/-- An entry of `self.commands` together with the signature of the
registered Python function: every handler takes `(args, line_no)` except
`help`, which is registered as the parameterless static method. -/
inductive CmdImpl where
  | binary (f : St → List String → Nat → CmdRes)
  | nullary (f : St → CmdRes)

/-- The registry `self.commands` (keys are already lower-case). -/
def commands (name : String) : Option CmdImpl :=
  if name = "printtext" then some (.binary cmd_printtext)
  else if name = "showvars" then some (.binary cmd_showvars)
  else if name = "openfile" then some (.binary cmd_openfile)
  else if name = "add" then some (.binary cmd_add)
  else if name = "help" then some (.nullary cmd_help)
  else if name = "subt" then some (.binary cmd_subt)
  else if name = "div" then some (.binary cmd_div)
  else if name = "times" then some (.binary cmd_multiply)
  else if name = "sqrt" then some (.binary cmd_squareroot)
  else if name = "input" then some (.binary cmd_input)
  else none

/-- The Python call `self.commands[head_l](args, line_no)`: two positional
arguments are always supplied, so calling the parameterless `help` handler
raises `TypeError` before its body runs. -/
def callCommand (impl : CmdImpl) (st : St) (args : List String) (lineNo : Nat) :
    CmdRes :=
  match impl with
  | .binary f => f st args lineNo
  | .nullary _ =>
    throwE st (.internal "DeadBasic.help() takes 0 positional arguments but 2 were given")

/-- `self.type_keywords`. -/
def typeKeywords : List String := ["int", "long", "double", "str"]

/-- The statement-dispatch pattern repeated at every execution site of
`execute_line`/`run_file`: a type keyword is a declaration, otherwise an
unknown head is a Syntax error, otherwise the registered command is
called. -/
def execStatement (st : St) (headL head : String) (args : List String)
    (lineNo : Nat) : CmdRes :=
  if headL ∈ typeKeywords then cmd_declare st headL args lineNo
  else
    match commands headL with
    | none => throwE st (.syn (fmt st.current_file lineNo ("unknown command: " ++ head)))
    | some impl => callCommand impl st args lineNo

/-! ## Body-line visibility and catch entry -/

/-- `_should_execute_if_body_line` on an open IF context. -/
def shouldExecIfBody (ic : IfCtx) : Bool :=
  (!ic.in_else && ic.cond_true) || (ic.in_else && !ic.cond_true)

/-- `_should_execute_try_body_line` on an open TRY context. -/
def shouldExecTryBody (tc : TryCtx) : Bool :=
  !tc.in_catch && !tc.has_error

/-- `_should_execute_catch_body_line` on an open TRY context. -/
def shouldExecCatchBody (tc : TryCtx) : Bool :=
  tc.in_catch && tc.has_error

/-- `_enter_catch_if_needed`: when in catch and an error-variable name was
given (Python truthiness: present and nonempty), bind it as a `str`
variable to the captured message, or `""` when none was raised. -/
def enterCatchIfNeeded (st : St) : St :=
  match st.try_ctx with
  | some tc =>
    if tc.in_catch then
      match tc.err_name with
      | some name =>
        if name = "" then st
        else { st with vars := st.vars.set name ⟨"str", .str (tc.err_msg.getD "")⟩ }
      | none => st
    else st
  | none => st

/-- What the TRY absorption stores in `err_msg`: `str(e)` for a
`DeadBasicError`, `f"Internal error: {e}"` for any other exception. -/
def absorbText : DBErr → String
  | .syn m => m
  | .rt m => m
  | .internal m => "Internal error: " ++ m

/-! ## The file runner (`run_file`) -/

/-- One lexed physical line: the binary indent flag of `_detect_indent`
and the `shlex` word tokens (`[]` for a blank or comment line). -/
structure Line where
  indented : Bool
  tokens : List String
deriving DecidableEq

/-- Is this line of the `endwhile` scan loop a hit: indent 0, tokens
nonempty, lower-cased head `endwhile`? -/
def isEndwhileLine (l : Line) : Bool :=
  !l.indented &&
    (match l.tokens with
     | t :: _ => pyLower t = "endwhile"
     | [] => false)

/-- The forward scan of the `while` header (`j = pc + 1; while j < n: ...`):
index of the first matching line at position ≥ `base` in `ls`. -/
def scanEndwhile : List Line → Nat → Option Nat
  | [], _ => none
  | l :: rest, base =>
    if isEndwhileLine l then some base else scanEndwhile rest (base + 1)

/-- Program counter plus interpreter state. -/
structure Config where
  st : St
  pc : Nat
deriving DecidableEq

/-- Result of one iteration of the `while pc < n` loop of `run_file`:
continue at a new configuration, fall out of the loop with the end-of-file
checks passed, or raise. -/
inductive StepRes where
  | next (c : Config)
  | done (st : St)
  | fault (e : DBErr)
deriving DecidableEq

/-- Head keywords that may not appear on an indented line. -/
def controlKeywords : List String :=
  ["if", "else", "endif", "while", "endwhile", "try", "catch", "endtry"]

/-- Run one statement and either advance the program counter or raise. -/
def execAdvance (st : St) (headL head : String) (args : List String)
    (lineNo pc : Nat) : StepRes :=
  match execStatement st headL head args lineNo with
  | .ok st2 => .next ⟨st2, pc + 1⟩
  | .error (e, _) => .fault e

/-- One iteration of the `run_file` loop (including, past the last line,
the dangling-block checks that follow the loop).  This is a direct
transcription of `DeadBasic.run_file`; in particular the `if` header's
guard on an open WHILE is `if self.while_ctx is not None: pass` in the
source — the check exists but does nothing. -/
def step (prog : List Line) (c : Config) : StepRes :=
  let n := prog.length
  let st := c.st
  let file := st.current_file
  match prog.get? c.pc with
  | some line =>
    let lineNo := c.pc + 1
    match line.tokens with
    | [] => .next ⟨st, c.pc + 1⟩
    | head :: args =>
      let headL := pyLower head
      if !line.indented then
        -- top level
        if headL = "while" then
          if st.while_ctx.isSome then
            .fault (.syn (fmt file lineNo "Nested WHILE not supported"))
          else if st.if_ctx.isSome then
            .fault (.syn (fmt file lineNo
              "WHILE cannot start inside an open IF; close IF first"))
          else if st.try_ctx.isSome then
            .fault (.syn (fmt file lineNo
              "WHILE cannot start inside an open TRY; close TRY first"))
          else
            match evalCondTokens file st.vars args lineNo with
            | .error e => .fault e
            | .ok cond =>
              if !cond then
                match scanEndwhile (prog.drop (c.pc + 1)) (c.pc + 1) with
                | none => .fault (.syn (fmt file lineNo
                    "missing \x27endwhile\x27 for this \x27while\x27"))
                | some j => .next ⟨st, j + 1⟩
              else .next ⟨{ st with while_ctx := some ⟨c.pc, args⟩ }, c.pc + 1⟩
        else if headL = "endwhile" then
          match st.while_ctx with
          | none => .fault (.syn (fmt file lineNo
              "\x27endwhile\x27 without matching \x27while\x27"))
          | some wc =>
            match evalCondTokens file st.vars wc.cond_tokens lineNo with
            | .error e => .fault e
            | .ok cond =>
              if cond then .next ⟨st, wc.start_pc + 1⟩
              else .next ⟨{ st with while_ctx := none }, c.pc + 1⟩
        else if headL = "try" then
          if st.try_ctx.isSome then
            .fault (.syn (fmt file lineNo "Nested TRY not supported"))
          else if st.if_ctx.isSome then
            .fault (.syn (fmt file lineNo
              "TRY cannot start inside an open IF; close IF first"))
          else if st.while_ctx.isSome then
            .fault (.syn (fmt file lineNo
              "TRY cannot start inside an open WHILE; close WHILE first"))
          else .next ⟨{ st with try_ctx := some ⟨false, false, none, none⟩ }, c.pc + 1⟩
        else if headL = "catch" then
          match st.try_ctx with
          | none => .fault (.syn (fmt file lineNo
              "\x27catch\x27 without matching \x27try\x27"))
          | some tc =>
            if tc.in_catch then
              .fault (.syn (fmt file lineNo "multiple \x27catch\x27 not allowed"))
            else if args.length > 1 then
              .fault (.syn (fmt file lineNo "catch takes zero or one var name"))
            else
              let st2 : St := { st with
                try_ctx := some { tc with in_catch := true, err_name := args.head? } }
              .next ⟨enterCatchIfNeeded st2, c.pc + 1⟩
        else if headL = "endtry" then
          match st.try_ctx with
          | none => .fault (.syn (fmt file lineNo
              "\x27endtry\x27 without matching \x27try\x27"))
          | some _ => .next ⟨{ st with try_ctx := none }, c.pc + 1⟩
        else if headL = "if" then
          if st.if_ctx.isSome then
            .fault (.syn (fmt file lineNo
              "Nested IF not supported (previous IF missing \x27endif\x27?)"))
          -- source: `if self.while_ctx is not None: pass` — no effect
          else if st.try_ctx.isSome then
            .fault (.syn (fmt file lineNo
              "IF cannot start inside an open TRY; close TRY first"))
          else
            match evalCondTokens file st.vars args lineNo with
            | .error e => .fault e
            | .ok cond => .next ⟨{ st with if_ctx := some ⟨cond, false⟩ }, c.pc + 1⟩
        else if headL = "else" then
          match st.if_ctx with
          | none => .fault (.syn (fmt file lineNo
              "\x27else\x27 without matching \x27if\x27"))
          | some ic =>
            if ic.in_else then
              .fault (.syn (fmt file lineNo "multiple \x27else\x27 not allowed"))
            else .next ⟨{ st with if_ctx := some { ic with in_else := true } }, c.pc + 1⟩
        else if headL = "endif" then
          match st.if_ctx with
          | none => .fault (.syn (fmt file lineNo
              "\x27endif\x27 without matching \x27if\x27"))
          | some _ => .next ⟨{ st with if_ctx := none }, c.pc + 1⟩
        else if st.if_ctx.isSome then
          .fault (.syn (fmt file lineNo
            "Inside IF: expected an indented body line (TAB/4 spaces), \x27else\x27, or \x27endif\x27"))
        else if st.try_ctx.isSome then
          .fault (.syn (fmt file lineNo
            "Inside TRY: expected an indented body line (TAB/4 spaces), \x27catch\x27, or \x27endtry\x27"))
        else execAdvance st headL head args lineNo c.pc
      else
        -- indented body line
        if headL ∈ controlKeywords then
          .fault (.syn (fmt file lineNo
            ("\x27" ++ headL ++ "\x27 must be at top level (no indent)")))
        else
          match st.if_ctx with
          | some ic =>
            if !shouldExecIfBody ic then .next ⟨st, c.pc + 1⟩
            else execAdvance st headL head args lineNo c.pc
          | none =>
            if st.while_ctx.isSome then execAdvance st headL head args lineNo c.pc
            else
              match st.try_ctx with
              | some tc =>
                if shouldExecTryBody tc then
                  match execStatement st headL head args lineNo with
                  | .ok st2 => .next ⟨st2, c.pc + 1⟩
                  | .error (e, st2) =>
                    -- `except` handler: record on the current try context
                    match st2.try_ctx with
                    | some tc2 => .next ⟨{ st2 with try_ctx := some { tc2 with
                        has_error := true, err_msg := some (absorbText e) } }, c.pc + 1⟩
                    | none => .fault (.internal
                        "\x27NoneType\x27 object does not support item assignment")
                else if shouldExecCatchBody tc then
                  execAdvance (enterCatchIfNeeded st) headL head args lineNo c.pc
                else .next ⟨st, c.pc + 1⟩
              | none =>
                .fault (.syn (fmt file lineNo
                  "You are missing the required \x27while/if/try\x27 before this indented line"))
  | none =>
    -- end of file: dangling-block checks
    if c.st.if_ctx.isSome then
      .fault (.syn (fmt file n "file ended but \x27endif\x27 is missing"))
    else if c.st.while_ctx.isSome then
      .fault (.syn (fmt file n "file ended but \x27endwhile\x27 is missing"))
    else if c.st.try_ctx.isSome then
      .fault (.syn (fmt file n "file ended but \x27endtry\x27 is missing"))
    else .done c.st

/-- Result of a whole run: normal completion, a raised error (reported by
the top-level driver), or fuel exhaustion (the Python loop may diverge). -/
inductive Outcome where
  | ok (st : St)
  | err (e : DBErr)
  | timeout (c : Config)
deriving DecidableEq

/-- Iterate `step` with fuel. -/
def run (prog : List Line) : Nat → Config → Outcome
  | 0, c => .timeout c
  | fuel + 1, c =>
    match step prog c with
    | .next c2 => run prog fuel c2
    | .done st => .ok st
    | .fault e => .err e

/-- The configuration reached after `k` non-faulting iterations (stays put
once the loop exits or raises). -/
def runCfg (prog : List Line) : Nat → Config → Config
  | 0, c => c
  | k + 1, c =>
    match step prog c with
    | .next c2 => runCfg prog k c2
    | _ => c

/-- The entry state of `run_file` on a fresh interpreter (`__main__` file
mode): empty store, all contexts cleared, `current_file` set. -/
def initConfig (file : String) (stdin : List String) : Config :=
  ⟨⟨[], none, none, none, file, stdin, []⟩, 0⟩

/-- Run a lexed program in file mode on a fresh interpreter. -/
def runProgram (file : String) (prog : List Line) (stdin : List String)
    (fuel : Nat) : Outcome :=
  run prog fuel (initConfig file stdin)

/-- The final state of a completed run, if any. -/
def Outcome.finalSt : Outcome → Option St
  | .ok st => some st
  | _ => none

/-- Did the run complete without error? -/
def Outcome.isOk : Outcome → Bool
  | .ok _ => true
  | _ => false

/-! ## Concrete programs and states used by the claim theorems -/

/-- An `if` header reached while a WHILE context is open (the body of the
`else` branch restores loop progress so the run terminates). -/
def progIfInsideWhile : List Line := [
  ⟨false, ["int", "i", "0"]⟩,
  ⟨false, ["while", "i", "<", "1"]⟩,
  ⟨false, ["if", "1", "=", "2"]⟩,
  ⟨false, ["else"]⟩,
  ⟨true,  ["int", "i", "1"]⟩,
  ⟨false, ["endif"]⟩,
  ⟨false, ["endwhile"]⟩]

/-- `int i 0` / `while i < 3` / a body that re-declares `i` one larger
(via `input`, the only statement that can re-bind a variable to a value
that changes between iterations) / `endwhile`. -/
def progLoopThree : List Line := [
  ⟨false, ["int", "i", "0"]⟩,
  ⟨false, ["while", "i", "<", "3"]⟩,
  ⟨true,  ["input", "int", "i"]⟩,
  ⟨true,  ["printtext", "body"]⟩,
  ⟨false, ["endwhile"]⟩]

/-- A `while` whose condition is false at the header: the body and its
`endwhile` are skipped entirely. -/
def progWhileFalse : List Line := [
  ⟨false, ["while", "1", "=", "2"]⟩,
  ⟨true,  ["printtext", "never"]⟩,
  ⟨false, ["endwhile"]⟩,
  ⟨false, ["printtext", "after"]⟩]

/-- A try section whose second line raises a Runtime error (division by
zero); the catch section prints the captured message. -/
def progTryDiv : List Line := [
  ⟨false, ["try"]⟩,
  ⟨true,  ["div", "1", "0"]⟩,
  ⟨true,  ["printtext", "A"]⟩,
  ⟨false, ["catch", "err"]⟩,
  ⟨true,  ["printtext", "err"]⟩,
  ⟨false, ["endtry"]⟩,
  ⟨false, ["printtext", "done"]⟩]

/-- A top-level declaration while a WHILE context is open. -/
def progWhileTopDecl : List Line := [
  ⟨false, ["int", "i", "0"]⟩,
  ⟨false, ["while", "i", "<", "1"]⟩,
  ⟨false, ["int", "i", "1"]⟩,
  ⟨false, ["endwhile"]⟩]

/-- `help` inside a try section. -/
def progHelpTry : List Line := [
  ⟨false, ["try"]⟩,
  ⟨true,  ["help"]⟩,
  ⟨false, ["catch", "e"]⟩,
  ⟨true,  ["printtext", "e"]⟩,
  ⟨false, ["endtry"]⟩]

/-- A state whose store holds one `int` variable `x`. -/
def stWithIntX : St :=
  ⟨[("x", ⟨"int", .int 1⟩)], none, none, none, "f.ba", ["hi"], []⟩

/-- The state `cmd_input stWithIntX ["str", "x"] 1` produces. -/
def stAfterInputStrX : St :=
  ⟨[("x", ⟨"str", .str "hi"⟩)], none, none, none, "f.ba", [], ["Enter str x: "]⟩

end DeadBasic

namespace DeadBasic

/-! ## Helper lemmas: decimal representations never smuggle a point -/

theorem data_append (a b : String) : (a ++ b).data = a.data ++ b.data :=
  String.data_append a b

theorem digitChar_ne_dot (n : Nat) (h : n < 10) : digitChar n ≠ '.' := by
  interval_cases n <;> decide

theorem natDigitsAux_ne_dot (fuel : Nat) :
    ∀ n c, c ∈ natDigitsAux fuel n → c ≠ '.' := by
  induction fuel with
  | zero => intro n c hc; simp [natDigitsAux] at hc
  | succ fuel ih =>
    intro n c hc
    match n with
    | 0 => simp [natDigitsAux] at hc
    | m + 1 =>
      rw [natDigitsAux] at hc
      rcases List.mem_append.mp hc with h1 | h2
      · exact ih _ _ h1
      · rcases List.mem_singleton.mp h2 with rfl
        exact digitChar_ne_dot _ (Nat.mod_lt _ (by norm_num))

theorem dot_not_mem_natRepr (n : Nat) : '.' ∉ (natRepr n).data := by
  unfold natRepr
  split
  · decide
  · intro hc
    exact natDigitsAux_ne_dot n n '.' hc rfl

theorem dot_not_mem_intRepr (n : ℤ) : '.' ∉ (intRepr n).data := by
  unfold intRepr
  split
  · rw [data_append]
    intro hc
    rcases List.mem_append.mp hc with h1 | h2
    · simp at h1
    · exact dot_not_mem_natRepr _ h2
  · exact dot_not_mem_natRepr _

theorem dot_mem_floatRepr (q : PyFloat) : '.' ∈ (floatRepr q).data := by
  unfold floatRepr
  rw [data_append, data_append, data_append]
  refine List.mem_append.mpr (.inl (List.mem_append.mpr (.inr ?_)))
  decide

theorem hasChar_eq_false_iff (s : String) (c : Char) :
    hasChar s c = false ↔ c ∉ s.data := by
  simp [hasChar, List.contains]

/-! ## Helper lemmas: `formatResult` and mathematical wholeness -/

theorem isInteger_iff_toRat_int (q : PyFloat) (hden : 0 < q.den) :
    q.isInteger = true ↔ ∃ n : ℤ, q.toRat = (n : ℚ) := by
  have hden0 : q.den ≠ 0 := by omega
  have hdenQ : (q.den : ℚ) ≠ 0 := by exact_mod_cast hden0
  unfold PyFloat.isInteger PyFloat.toRat
  rw [decide_eq_true_eq]
  constructor
  · intro h
    rcases Int.dvd_of_emod_eq_zero h with ⟨k, hk⟩
    exact ⟨k, by rw [hk]; push_cast; field_simp⟩
  · rintro ⟨n, hn⟩
    rw [div_eq_iff hdenQ] at hn
    have : q.num = n * q.den := by exact_mod_cast hn
    exact Int.emod_eq_zero_of_dvd ⟨n, by rw [this]; ring⟩

theorem formatResult_dot_iff (q : PyFloat) (hden : 0 < q.den) :
    (hasChar (formatResult q) '.' = false ↔ ∃ n : ℤ, q.toRat = (n : ℚ)) := by
  unfold formatResult
  by_cases h : q.isInteger = true
  · rw [if_pos h]
    simp only [hasChar_eq_false_iff]
    constructor
    · intro _; exact (isInteger_iff_toRat_int q hden).mp h
    · intro _; exact dot_not_mem_intRepr _
  · rw [if_neg h]
    constructor
    · intro hc
      exact absurd (dot_mem_floatRepr q) ((hasChar_eq_false_iff _ _).mp hc)
    · intro hex
      exact absurd ((isInteger_iff_toRat_int q hden).mpr hex) h

/-! ## Helper lemmas: store and `_to_number` -/

theorem store_get_set_self (s : Store) (name : String) (e : VarEntry) :
    Store.get? (Store.set s name e) name = some e := by
  induction s with
  | nil => simp [Store.set, Store.get?]
  | cons hd tl ih =>
    rcases hd with ⟨k, e0⟩
    by_cases h : k = name
    · simp [Store.set, Store.get?, h]
    · simp [Store.set, Store.get?, h, ih]

theorem toNumber_error_shape (file : String) (v : Value) (lineNo : Nat)
    (label : String) (e : DBErr)
    (h : toNumber file v lineNo label = .error e) :
    e = .rt (fmt file lineNo (label ++ " is not numeric")) := by
  unfold toNumber at h
  match v with
  | .int n => simp at h
  | .float q => simp at h
  | .str s =>
    dsimp only at h
    split at h
    · simp at h
    · simpa using h.symm

/-! ## C7 -/

/-- **C7**: every arithmetic command prints through the shared step
`print(int(result) if result.is_integer() else result)`, whose output has
no decimal point exactly when the result is mathematically whole;
`add 2 2` prints `4` and `add 2 2.5` prints `4.5`; `_to_number` of the
string `"4"`, the int `4` and the float `4.0` are numerically equal. -/
theorem c7_arithmetic_whole_results_print_without_fraction :
    (∀ q : PyFloat, 0 < q.den →
      (hasChar (formatResult q) '.' = false ↔ ∃ n : ℤ, q.toRat = (n : ℚ))) ∧
    (∀ st x y a b lineNo,
      toNumber st.current_file (resolve st.vars x) lineNo "first argument" = .ok a →
      toNumber st.current_file (resolve st.vars y) lineNo "second argument" = .ok b →
      cmd_add st [x, y] lineNo = .ok (emit st (formatResult (a.add b))) ∧
      cmd_subt st [x, y] lineNo = .ok (emit st (formatResult (a.sub b))) ∧
      cmd_multiply st [x, y] lineNo = .ok (emit st (formatResult (a.mul b))) ∧
      (b.isZero = false →
        cmd_div st [x, y] lineNo = .ok (emit st (formatResult (a.div b))))) ∧
    (∀ st x a lineNo,
      toNumber st.current_file (resolve st.vars x) lineNo "first argument" = .ok a →
      ¬ a.num < 0 →
      cmd_squareroot st [x] lineNo = .ok (emit st (formatResult (pySqrt a)))) ∧
    cmd_add (initConfig "f.ba" []).st ["2", "2"] 1 =
      .ok (emit (initConfig "f.ba" []).st "4") ∧
    cmd_add (initConfig "f.ba" []).st ["2", "2.5"] 1 =
      .ok (emit (initConfig "f.ba" []).st "4.5") ∧
    (∀ file lineNo label,
      toNumber file (.str "4") lineNo label = .ok (PyFloat.ofInt 4) ∧
      toNumber file (.int 4) lineNo label = .ok (PyFloat.ofInt 4) ∧
      toNumber file (.float ⟨40, 10⟩) lineNo label = .ok ⟨40, 10⟩ ∧
      pyFloatParse "4.0" = some ⟨40, 10⟩ ∧
      (PyFloat.ofInt 4).toRat = (⟨40, 10⟩ : PyFloat).toRat) := by
  refine ⟨?_, ?_, ?_, by decide, by decide, ?_⟩
  · intro q hq
    exact formatResult_dot_iff q hq
  · intro st x y a b lineNo hx hy
    refine ⟨?_, ?_, ?_, ?_⟩
    · simp [cmd_add, hx, hy]
    · simp [cmd_subt, hx, hy]
    · simp [cmd_multiply, hx, hy]
    · intro hb
      simp [cmd_div, hx, hy, hb]
  · intro st x a lineNo hx ha
    simp [cmd_squareroot, hx, ha]
  · intro file lineNo label
    refine ⟨rfl, rfl, rfl, by decide, ?_⟩
    unfold PyFloat.toRat PyFloat.ofInt
    norm_num

/-- Witness for C7 at concrete inputs. -/
theorem c7_witness :
    (hasChar (formatResult ⟨9, 2⟩) '.' = false ↔
      ∃ n : ℤ, (⟨9, 2⟩ : PyFloat).toRat = (n : ℚ)) ∧
    cmd_subt (initConfig "f.ba" []).st ["2", "2"] 1 =
      .ok (emit (initConfig "f.ba" []).st
        (formatResult ((PyFloat.ofInt 2).sub (PyFloat.ofInt 2)))) ∧
    cmd_squareroot (initConfig "f.ba" []).st ["4"] 1 =
      .ok (emit (initConfig "f.ba" []).st (formatResult (pySqrt (PyFloat.ofInt 4)))) := by
  refine ⟨c7_arithmetic_whole_results_print_without_fraction.1 ⟨9, 2⟩ (by decide),
    (c7_arithmetic_whole_results_print_without_fraction.2.1
      (initConfig "f.ba" []).st "2" "2" (PyFloat.ofInt 2) (PyFloat.ofInt 2) 1
      (by decide) (by decide)).2.1,
    c7_arithmetic_whole_results_print_without_fraction.2.2.1
      (initConfig "f.ba" []).st "4" (PyFloat.ofInt 4) 1 (by decide) (by decide)⟩

/-! ## C8 -/

/-- **C8**: `help` is registered as the parameterless static method while
every dispatch site passes two arguments, so invoking it raises a
host-level `TypeError` (an internal error, never a DeadBasic Syntax or
Runtime error): at the top level of a file it aborts the run as an
internal error, and inside a try section it is absorbed with an
`Internal error: ...` message. -/
theorem c8_help_dispatch_raises_host_type_error :
    commands "help" = some (.nullary cmd_help) ∧
    (∀ st args lineNo, callCommand (CmdImpl.nullary cmd_help) st args lineNo =
      .error (.internal
        "DeadBasic.help() takes 0 positional arguments but 2 were given", st)) ∧
    runProgram "t.ba" [⟨false, ["help"]⟩] [] 10 =
      .err (.internal
        "DeadBasic.help() takes 0 positional arguments but 2 were given") ∧
    (runProgram "t.ba" progHelpTry [] 30).finalSt.map St.output =
      some ["Internal error: DeadBasic.help() takes 0 positional arguments but 2 were given"] := by
  exact ⟨rfl, fun st args lineNo => rfl, by decide, by decide⟩

/-! ## C10 -/

/-- **C10**: `sqrt` validates only the argument-count upper bound; with
zero arguments the unguarded `args[0]` raises a host-level `IndexError`
(an internal error), not a Syntax error about a missing argument. -/
theorem c10_sqrt_zero_args_raises_index_error :
    (∀ st lineNo, cmd_squareroot st [] lineNo =
      .error (.internal "list index out of range", st)) ∧
    (∀ st lineNo x y zs, cmd_squareroot st (x :: y :: zs) lineNo =
      .error (.syn (fmt st.current_file lineNo "Square root only needs 1 number"), st)) := by
  constructor
  · intro st lineNo
    rfl
  · intro st lineNo x y zs
    have h : (x :: y :: zs).length > 1 := by simp
    simp [cmd_squareroot, h, throwE]

/-! ## C4 and C9 -/

/-- Does this statement result raise a Runtime error from exactly the
state `st` (so the raise left the interpreter state untouched)? -/
def isRtErrorKeeping (r : CmdRes) (st : St) : Bool :=
  match r with
  | .error (.rt _, st2) => st2 = st
  | _ => false

theorem declare_mismatch_rt (st : St) (name vtype v0 : String)
    (vrest : List String) (lineNo : Nat) (old : VarEntry)
    (hty : vtype ∈ typeKeywords) (hname : st.vars.get? name = some old)
    (hne : old.vtype ≠ vtype) :
    ∃ msg, cmd_declare st vtype (name :: v0 :: vrest) lineNo =
      .error (.rt msg, st) := by
  have hcases : vtype = "int" ∨ vtype = "long" ∨ vtype = "double" ∨ vtype = "str" := by
    simpa [typeKeywords] using hty
  rcases hcases with rfl | rfl | rfl | rfl
  · rcases hp : pyIntParse (String.intercalate " " (v0 :: vrest)) with _ | v
    · refine ⟨fmt st.current_file lineNo
        ("\x27" ++ String.intercalate " " (v0 :: vrest) ++ "\x27 is not an integer"), ?_⟩
      simp [cmd_declare, declParse, hp, throwE]
    · refine ⟨fmt st.current_file lineNo
        ("type mismatch: " ++ name ++ " is " ++ old.vtype ++ ", not " ++ "int"), ?_⟩
      simp [cmd_declare, declParse, hp, hname, hne, throwE]
  · rcases hp : pyIntParse (String.intercalate " " (v0 :: vrest)) with _ | v
    · refine ⟨fmt st.current_file lineNo
        ("\x27" ++ String.intercalate " " (v0 :: vrest) ++ "\x27 is not an integer"), ?_⟩
      simp [cmd_declare, declParse, hp, throwE]
    · refine ⟨fmt st.current_file lineNo
        ("type mismatch: " ++ name ++ " is " ++ old.vtype ++ ", not " ++ "long"), ?_⟩
      simp [cmd_declare, declParse, hp, hname, hne, throwE]
  · rcases hp : pyFloatParse (String.intercalate " " (v0 :: vrest)) with _ | v
    · refine ⟨fmt st.current_file lineNo
        ("\x27" ++ String.intercalate " " (v0 :: vrest) ++ "\x27 is not a double"), ?_⟩
      simp [cmd_declare, declParse, hp, throwE]
    · refine ⟨fmt st.current_file lineNo
        ("type mismatch: " ++ name ++ " is " ++ old.vtype ++ ", not " ++ "double"), ?_⟩
      simp [cmd_declare, declParse, hp, hname, hne, throwE]
  · refine ⟨fmt st.current_file lineNo
      ("type mismatch: " ++ name ++ " is " ++ old.vtype ++ ", not " ++ "str"), ?_⟩
    simp [cmd_declare, declParse, hname, hne, throwE]

/-- **C4**: redeclaring an existing variable with a different type keyword
fails with a Runtime error and leaves the store unchanged (the error
carries the incoming state); redeclaring with the same type keyword (and a
parseable value) succeeds and overwrites the stored value. -/
theorem c4_redeclaration_type_discipline
    (st : St) (name vtype v0 : String) (vrest : List String) (lineNo : Nat)
    (old : VarEntry) (hty : vtype ∈ typeKeywords)
    (hname : st.vars.get? name = some old) :
    (old.vtype ≠ vtype →
      ∃ msg, cmd_declare st vtype (name :: v0 :: vrest) lineNo =
        .error (.rt msg, st)) ∧
    (∀ val, old.vtype = vtype →
      declParse st.current_file vtype (String.intercalate " " (v0 :: vrest)) lineNo
        = .ok val →
      cmd_declare st vtype (name :: v0 :: vrest) lineNo =
        .ok { st with vars := st.vars.set name ⟨vtype, val⟩ } ∧
      Store.get? (Store.set st.vars name ⟨vtype, val⟩) name = some ⟨vtype, val⟩) := by
  constructor
  · intro hne
    exact declare_mismatch_rt st name vtype v0 vrest lineNo old hty hname hne
  · intro val hsame hp
    refine ⟨?_, store_get_set_self _ _ _⟩
    simp [cmd_declare, hp, hname, hsame]

/-- Witness for C4 at a concrete store. -/
theorem c4_witness :
    isRtErrorKeeping (cmd_declare stWithIntX "str" ["x", "hi"] 1) stWithIntX = true ∧
    cmd_declare stWithIntX "int" ["x", "2"] 1 =
      .ok { stWithIntX with vars := stWithIntX.vars.set "x" ⟨"int", .int 2⟩ } := by
  constructor
  · obtain ⟨msg, hmsg⟩ :=
      (c4_redeclaration_type_discipline stWithIntX "x" "str" "hi" [] 1
        ⟨"int", .int 1⟩ (by decide) (by decide)).1 (by decide)
    rw [hmsg]
    rfl
  · exact ((c4_redeclaration_type_discipline stWithIntX "x" "int" "2" [] 1
      ⟨"int", .int 1⟩ (by decide) (by decide)).2 (.int 2) (by decide) (by decide)).1

/-- **C9**: `input` never checks the new type against an existing
variable: whenever it succeeds it has overwritten the store entry with the
newly supplied type, so it can silently change a declared variable to a
different type — while a re-declaration with that different type keyword
fails with a Runtime error. -/
theorem c9_input_overwrites_declared_type
    (st : St) (vtype name : String) (lineNo : Nat) (old : VarEntry)
    (hname : st.vars.get? name = some old) :
    (∀ st2, cmd_input st [vtype, name] lineNo = .ok st2 →
      ∃ v, st2.vars.get? name = some ⟨vtype, v⟩) ∧
    (old.vtype ≠ vtype → vtype ∈ typeKeywords → ∀ v0 vrest,
      ∃ msg, cmd_declare st vtype (name :: v0 :: vrest) lineNo =
        .error (.rt msg, st)) := by
  constructor
  · intro st2 h
    rcases hin : st.stdin with _ | ⟨raw, rest⟩
    · simp [cmd_input, hin, throwE] at h
    · by_cases h1 : vtype = "int"
      · subst h1
        rcases hp : pyIntParse raw with _ | v
        · simp [cmd_input, hin, hp, throwE] at h
        · simp only [cmd_input, hin, hp, if_true, if_false, ite_true, ite_false,
            Except.ok.injEq] at h
          exact ⟨.int v, by rw [← h]; exact store_get_set_self _ _ _⟩
      · by_cases h2 : vtype = "long"
        · subst h2
          rcases hp : pyIntParse raw with _ | v
          · simp [cmd_input, hin, hp, throwE] at h
          · simp only [cmd_input, hin, hp, h1, if_true, if_false, ite_true, ite_false,
              if_neg, Except.ok.injEq] at h
            exact ⟨.int v, by rw [← h]; exact store_get_set_self _ _ _⟩
        · by_cases h3 : vtype = "double"
          · subst h3
            rcases hp : pyFloatParse raw with _ | v
            · simp [cmd_input, hin, hp, throwE] at h
            · simp only [cmd_input, hin, hp, h1, h2, if_true, if_false, ite_true,
                ite_false, if_neg, Except.ok.injEq] at h
              exact ⟨.float v, by rw [← h]; exact store_get_set_self _ _ _⟩
          · by_cases h4 : vtype = "str"
            · subst h4
              simp only [cmd_input, hin, h1, h2, h3, if_true, if_false, ite_true,
                ite_false, if_neg, Except.ok.injEq] at h
              exact ⟨.str raw, by rw [← h]; exact store_get_set_self _ _ _⟩
            · simp [cmd_input, hin, h1, h2, h3, h4, throwE] at h
  · intro hne hty v0 vrest
    exact declare_mismatch_rt st name vtype v0 vrest lineNo old hty hname hne

/-- Witness for C9 at a concrete store: `x` is declared `int`, `input str
x` succeeds and rebinds it as `str`, while `str x hi` is a Runtime
error. -/
theorem c9_witness :
    ((cmd_input stWithIntX ["str", "x"] 1).toOption.bind
      (fun st2 => (st2.vars.get? "x").map VarEntry.vtype)) = some "str" ∧
    isRtErrorKeeping (cmd_declare stWithIntX "str" ["x", "hi"] 1) stWithIntX = true := by
  constructor
  · have hrun : cmd_input stWithIntX ["str", "x"] 1 = .ok stAfterInputStrX := by decide
    obtain ⟨v, hv⟩ := (c9_input_overwrites_declared_type stWithIntX "str" "x" 1
      ⟨"int", .int 1⟩ (by decide)).1 stAfterInputStrX hrun
    rw [hrun]
    simp [Except.toOption, hv]
  · obtain ⟨msg, hmsg⟩ := (c9_input_overwrites_declared_type stWithIntX "str" "x" 1
      ⟨"int", .int 1⟩ (by decide)).2 (by decide) (by decide) "hi" []
    rw [hmsg]
    rfl

/-! ## C5 -/

/-- **C5 counterexample**: the claim says an unknown operator fails with a
Syntax error, but `1 ? x` (operator `?`, right side the non-numeric bare
word `x`) fails with the Runtime coercion error instead: both sides are
coerced through `_to_number` before the operator is recognised. -/
theorem c5_counterexample :
    evalCondTokens "f.ba" [] ["1", "?", "x"] 1 =
      .error (.rt "[f.ba:line 1] right side is not numeric") := by
  decide

/-- **C5** (amended): the evaluator accepts `not <value>` (a head token
`not`, case-insensitively, always selects this shape) and
`<lhs> <op> <rhs>`; `=`/`!=` compare resolved values directly; for every
other operator both sides are coerced through `_to_number` first — a
non-numeric side is a Runtime error naming that side even when the
operator is unknown — and only with both sides numeric is an unknown
operator a Syntax error; any other token count is a Syntax error. -/
theorem c5_condition_evaluator :
    (∀ file vars lineNo, evalCondTokens file vars [] lineNo =
      .error (.syn (fmt file lineNo "condition required"))) ∧
    (∀ file vars lineNo t0 v, pyLower t0 = "not" →
      evalCondTokens file vars [t0, v] lineNo = .ok (!truthy (resolve vars v))) ∧
    (∀ file vars lineNo t0 rest, pyLower t0 = "not" → rest.length ≠ 1 →
      evalCondTokens file vars (t0 :: rest) lineNo =
        .error (.syn (fmt file lineNo "\x27not\x27 expects exactly one value"))) ∧
    (∀ file vars lineNo lhs rhs, pyLower lhs ≠ "not" →
      evalCondTokens file vars [lhs, "=", rhs] lineNo =
        .ok (pyEq (resolve vars lhs) (resolve vars rhs)) ∧
      evalCondTokens file vars [lhs, "!=", rhs] lineNo =
        .ok (!pyEq (resolve vars lhs) (resolve vars rhs))) ∧
    (∀ file vars lineNo lhs op rhs a b, pyLower lhs ≠ "not" →
      op ≠ "=" → op ≠ "!=" →
      toNumber file (resolve vars lhs) lineNo "left side" = .ok a →
      toNumber file (resolve vars rhs) lineNo "right side" = .ok b →
      evalCondTokens file vars [lhs, op, rhs] lineNo =
        (if op = "<" then .ok (a.blt b)
         else if op = ">" then .ok (b.blt a)
         else if op = "<=" then .ok (a.ble b)
         else if op = ">=" then .ok (b.ble a)
         else .error (.syn (fmt file lineNo
           ("unknown operator \x27" ++ op ++ "\x27"))))) ∧
    (∀ file vars lineNo lhs op rhs e, pyLower lhs ≠ "not" →
      op ≠ "=" → op ≠ "!=" →
      toNumber file (resolve vars lhs) lineNo "left side" = .error e →
      evalCondTokens file vars [lhs, op, rhs] lineNo =
        .error (.rt (fmt file lineNo "left side is not numeric"))) ∧
    (∀ file vars lineNo lhs op rhs a e, pyLower lhs ≠ "not" →
      op ≠ "=" → op ≠ "!=" →
      toNumber file (resolve vars lhs) lineNo "left side" = .ok a →
      toNumber file (resolve vars rhs) lineNo "right side" = .error e →
      evalCondTokens file vars [lhs, op, rhs] lineNo =
        .error (.rt (fmt file lineNo "right side is not numeric"))) ∧
    (∀ file vars lineNo t0 rest, pyLower t0 ≠ "not" → (t0 :: rest).length ≠ 3 →
      evalCondTokens file vars (t0 :: rest) lineNo =
        .error (.syn (fmt file lineNo
          "condition must be: <lhs> <op> <rhs> or \x27not <value>\x27"))) := by
  refine ⟨?_, ?_, ?_, ?_, ?_, ?_, ?_, ?_⟩
  · intro file vars lineNo
    rfl
  · intro file vars lineNo t0 v h
    simp [evalCondTokens, h]
  · intro file vars lineNo t0 rest h hlen
    rcases rest with _ | ⟨a, _ | ⟨b, t⟩⟩
    · simp [evalCondTokens, h]
    · simp at hlen
    · simp [evalCondTokens, h]
  · intro file vars lineNo lhs rhs h
    constructor <;> simp [evalCondTokens, h]
  · intro file vars lineNo lhs op rhs a b h h1 h2 hx hy
    simp [evalCondTokens, h, h1, h2, hx, hy]
  · intro file vars lineNo lhs op rhs e h h1 h2 hx
    have he := toNumber_error_shape _ _ _ _ _ hx
    subst he
    simp [evalCondTokens, h, h1, h2, hx]
  · intro file vars lineNo lhs op rhs a e h h1 h2 hx hy
    have he := toNumber_error_shape _ _ _ _ _ hy
    subst he
    simp [evalCondTokens, h, h1, h2, hx, hy]
  · intro file vars lineNo t0 rest h hlen
    rcases rest with _ | ⟨a, _ | ⟨b, _ | ⟨c, t⟩⟩⟩
    · simp [evalCondTokens, h]
    · simp [evalCondTokens, h]
    · simp at hlen
    · simp [evalCondTokens, h]

/-- Witness for C5 at concrete inputs. -/
theorem c5_witness :
    evalCondTokens "f.ba" [] ["not", "0"] 1 = .ok true ∧
    evalCondTokens "f.ba" [] ["1", "=", "1"] 1 = .ok true ∧
    evalCondTokens "f.ba" [] ["1", "<", "2"] 1 = .ok true ∧
    evalCondTokens "f.ba" [] ["1", "?", "2"] 1 =
      .error (.syn (fmt "f.ba" 1 ("unknown operator \x27" ++ "?" ++ "\x27"))) ∧
    evalCondTokens "f.ba" [] ["1", "<", "2", "3"] 1 =
      .error (.syn (fmt "f.ba" 1
        "condition must be: <lhs> <op> <rhs> or \x27not <value>\x27")) := by
  refine ⟨?_, ?_, ?_, ?_, ?_⟩
  · have h := c5_condition_evaluator.2.1 "f.ba" [] 1 "not" "0" (by decide)
    rw [h]
    decide
  · have h := (c5_condition_evaluator.2.2.2.1 "f.ba" [] 1 "1" "1" (by decide)).1
    rw [h]
    decide
  · have h := c5_condition_evaluator.2.2.2.2.1 "f.ba" [] 1 "1" "<" "2"
      (PyFloat.ofInt 1) (PyFloat.ofInt 2) (by decide) (by decide) (by decide)
      (by decide) (by decide)
    rw [h]
    decide
  · have h := c5_condition_evaluator.2.2.2.2.1 "f.ba" [] 1 "1" "?" "2"
      (PyFloat.ofInt 1) (PyFloat.ofInt 2) (by decide) (by decide) (by decide)
      (by decide) (by decide)
    rw [h]
    decide
  · exact c5_condition_evaluator.2.2.2.2.2.2.2 "f.ba" [] 1 "1" ["<", "2", "3"]
      (by decide) (by decide)

/-! ## C1 -/

/-- **C1** (the code violates the claim): the `if` header's guard on an
open WHILE is `if self.while_ctx is not None: pass` — the check exists but
raises nothing.  In `progIfInsideWhile` the WHILE context is open when the
`if` header at index 2 is reached, the `if` opens its context anyway, both
contexts are simultaneously non-closed after three steps, and the whole
run completes without any Syntax error. -/
theorem c1_if_header_opens_inside_open_while :
    progIfInsideWhile.get? 2 = some ⟨false, ["if", "1", "=", "2"]⟩ ∧
    (runCfg progIfInsideWhile 2 (initConfig "t.ba" [])).pc = 2 ∧
    (runCfg progIfInsideWhile 2 (initConfig "t.ba" [])).st.while_ctx.isSome = true ∧
    (runCfg progIfInsideWhile 3 (initConfig "t.ba" [])).st.while_ctx.isSome = true ∧
    (runCfg progIfInsideWhile 3 (initConfig "t.ba" [])).st.if_ctx.isSome = true ∧
    (runProgram "t.ba" progIfInsideWhile [] 30).isOk = true := by
  decide

/-! ## C6 -/

/-- **C6 counterexample**: with a WHILE context open, the top-level
declaration `int i 1` at index 2 of `progWhileTopDecl` executes instead of
failing with a Syntax error — the run completes and the declaration took
effect. -/
theorem c6_counterexample :
    progWhileTopDecl.get? 2 = some ⟨false, ["int", "i", "1"]⟩ ∧
    (runCfg progWhileTopDecl 2 (initConfig "t.ba" [])).pc = 2 ∧
    (runCfg progWhileTopDecl 2 (initConfig "t.ba" [])).st.while_ctx.isSome = true ∧
    (runProgram "t.ba" progWhileTopDecl [] 30).isOk = true ∧
    (runProgram "t.ba" progWhileTopDecl [] 30).finalSt.map
      (fun s => Store.get? s.vars "i") = some (some ⟨"int", .int 1⟩) := by
  decide

/-- **C6** (amended): with an IF or TRY context open, a top-level
declaration or command that is not one of the block header keywords fails
with the Syntax error naming the open block; with a WHILE context open
there is no such restriction — the statement executes unconditionally. -/
theorem c6_top_level_restriction (prog : List Line) (c : Config)
    (head : String) (args : List String)
    (hline : prog.get? c.pc = some ⟨false, head :: args⟩)
    (hk : pyLower head ∉ controlKeywords) :
    (∀ ic, c.st.if_ctx = some ic →
      step prog c = .fault (.syn (fmt c.st.current_file (c.pc + 1)
        "Inside IF: expected an indented body line (TAB/4 spaces), \x27else\x27, or \x27endif\x27"))) ∧
    (c.st.if_ctx = none → ∀ tc, c.st.try_ctx = some tc →
      step prog c = .fault (.syn (fmt c.st.current_file (c.pc + 1)
        "Inside TRY: expected an indented body line (TAB/4 spaces), \x27catch\x27, or \x27endtry\x27"))) ∧
    (c.st.if_ctx = none → c.st.try_ctx = none → ∀ wc, c.st.while_ctx = some wc →
      step prog c = execAdvance c.st (pyLower head) head args (c.pc + 1) c.pc) := by
  simp only [controlKeywords, List.mem_cons, List.not_mem_nil, not_or, or_false] at hk
  obtain ⟨k1, k2, k3, k4, k5, k6, k7, k8⟩ := hk
  have hline2 : prog[c.pc]? = some (⟨false, head :: args⟩ : Line) := by
    rw [← List.get?_eq_getElem?]
    exact hline
  refine ⟨?_, ?_, ?_⟩
  · intro ic hic
    simp [step, hline2, hic, k1, k2, k3, k4, k5, k6, k7, k8]
  · intro hic tc htc
    simp [step, hline2, hic, htc, k1, k2, k3, k4, k5, k6, k7, k8]
  · intro hic htc wc hwc
    simp [step, hline2, hic, htc, hwc, k1, k2, k3, k4, k5, k6, k7, k8]

/-- Witness for C6 at concrete configurations. -/
theorem c6_witness :
    step [⟨false, ["int", "i", "1"]⟩]
      ⟨⟨[], some ⟨true, false⟩, none, none, "t.ba", [], []⟩, 0⟩ =
      .fault (.syn (fmt "t.ba" 1
        "Inside IF: expected an indented body line (TAB/4 spaces), \x27else\x27, or \x27endif\x27")) ∧
    step [⟨false, ["int", "i", "1"]⟩]
      ⟨⟨[], none, none, some ⟨false, false, none, none⟩, "t.ba", [], []⟩, 0⟩ =
      .fault (.syn (fmt "t.ba" 1
        "Inside TRY: expected an indented body line (TAB/4 spaces), \x27catch\x27, or \x27endtry\x27")) ∧
    step progWhileTopDecl
      ⟨⟨[("i", ⟨"int", .int 0⟩)], none, some ⟨1, ["i", "<", "1"]⟩, none, "t.ba", [], []⟩, 2⟩ =
      execAdvance ⟨[("i", ⟨"int", .int 0⟩)], none, some ⟨1, ["i", "<", "1"]⟩, none, "t.ba", [], []⟩
        "int" "int" ["i", "1"] 3 2 := by
  refine ⟨?_, ?_, ?_⟩
  · exact (c6_top_level_restriction [⟨false, ["int", "i", "1"]⟩]
      ⟨⟨[], some ⟨true, false⟩, none, none, "t.ba", [], []⟩, 0⟩ "int" ["i", "1"]
      (by decide) (by decide)).1 ⟨true, false⟩ rfl
  · exact (c6_top_level_restriction [⟨false, ["int", "i", "1"]⟩]
      ⟨⟨[], none, none, some ⟨false, false, none, none⟩, "t.ba", [], []⟩, 0⟩ "int" ["i", "1"]
      (by decide) (by decide)).2.1 rfl ⟨false, false, none, none⟩ rfl
  · exact (c6_top_level_restriction progWhileTopDecl
      ⟨⟨[("i", ⟨"int", .int 0⟩)], none, some ⟨1, ["i", "<", "1"]⟩, none, "t.ba", [], []⟩, 2⟩
      "int" ["i", "1"] (by decide) (by decide)).2.2 rfl rfl
      ⟨1, ["i", "<", "1"]⟩ rfl

/-! ## Helper lemmas: the `endwhile` forward scan finds the first hit -/

theorem scanEndwhile_some_spec (ls : List Line) (base j : Nat)
    (h : scanEndwhile ls base = some j) :
    base ≤ j ∧
    (∃ l, ls.get? (j - base) = some l ∧ isEndwhileLine l = true) ∧
    (∀ i, i < j - base → ∀ l, ls.get? i = some l → isEndwhileLine l = false) := by
  induction ls generalizing base with
  | nil => simp [scanEndwhile] at h
  | cons hd tl ih =>
    rw [scanEndwhile] at h
    by_cases hhd : isEndwhileLine hd = true
    · rw [if_pos hhd] at h
      obtain rfl : base = j := by simpa using h
      refine ⟨le_refl _, ⟨hd, by simp, hhd⟩, ?_⟩
      intro i hi
      omega
    · rw [if_neg hhd] at h
      obtain ⟨hle, ⟨l, hl, hew⟩, hmin⟩ := ih (base + 1) h
      refine ⟨by omega, ⟨l, ?_, hew⟩, ?_⟩
      · have hj : j - base = (j - (base + 1)) + 1 := by omega
        rw [hj]
        simpa using hl
      · intro i hi l2 hl2
        cases i with
        | zero =>
          simp only [List.get?] at hl2
          obtain rfl : hd = l2 := by simpa using hl2
          exact eq_false_of_ne_true hhd
        | succ i =>
          have : i < j - (base + 1) := by omega
          exact hmin i this l2 (by simpa using hl2)

theorem scanEndwhile_none_spec (ls : List Line) (base : Nat)
    (h : scanEndwhile ls base = none) :
    ∀ i l, ls.get? i = some l → isEndwhileLine l = false := by
  induction ls generalizing base with
  | nil =>
    intro i l hl
    simp at hl
  | cons hd tl ih =>
    rw [scanEndwhile] at h
    by_cases hhd : isEndwhileLine hd = true
    · rw [if_pos hhd] at h
      simp at h
    · rw [if_neg hhd] at h
      intro i l hl
      cases i with
      | zero =>
        obtain rfl : hd = l := by simpa using hl
        exact eq_false_of_ne_true hhd
      | succ i => exact ih (base + 1) h i l (by simpa using hl)

/-! ## C2 -/

/-- **C2**: a false `while` header jumps past the first subsequent
indent-0 `endwhile`-headed line (a Syntax error when none exists) and
opens no context; a true header opens a WhileContext recording the header
position and condition tokens; `endwhile` re-evaluates those tokens,
jumping back just after the header when still true, closing and advancing
when false; the concrete loop program executes its body exactly 3 times. -/
theorem c2_while_semantics (prog : List Line) (c : Config)
    (head : String) (args : List String) :
    (prog.get? c.pc = some ⟨false, head :: args⟩ → pyLower head = "while" →
      c.st.if_ctx = none → c.st.while_ctx = none → c.st.try_ctx = none →
      evalCondTokens c.st.current_file c.st.vars args (c.pc + 1) = .ok false →
      (∀ j, scanEndwhile (prog.drop (c.pc + 1)) (c.pc + 1) = some j →
        step prog c = .next ⟨c.st, j + 1⟩ ∧
        c.pc + 1 ≤ j ∧
        (∃ l, prog.get? j = some l ∧ isEndwhileLine l = true) ∧
        (∀ k, c.pc + 1 ≤ k → k < j → ∀ l, prog.get? k = some l →
          isEndwhileLine l = false)) ∧
      (scanEndwhile (prog.drop (c.pc + 1)) (c.pc + 1) = none →
        step prog c = .fault (.syn (fmt c.st.current_file (c.pc + 1)
          "missing \x27endwhile\x27 for this \x27while\x27")))) ∧
    (prog.get? c.pc = some ⟨false, head :: args⟩ → pyLower head = "while" →
      c.st.if_ctx = none → c.st.while_ctx = none → c.st.try_ctx = none →
      evalCondTokens c.st.current_file c.st.vars args (c.pc + 1) = .ok true →
      step prog c = .next ⟨{ c.st with while_ctx := some ⟨c.pc, args⟩ }, c.pc + 1⟩) ∧
    (∀ wc, prog.get? c.pc = some ⟨false, head :: args⟩ → pyLower head = "endwhile" →
      c.st.while_ctx = some wc →
      (evalCondTokens c.st.current_file c.st.vars wc.cond_tokens (c.pc + 1) = .ok true →
        step prog c = .next ⟨c.st, wc.start_pc + 1⟩) ∧
      (evalCondTokens c.st.current_file c.st.vars wc.cond_tokens (c.pc + 1) = .ok false →
        step prog c = .next ⟨{ c.st with while_ctx := none }, c.pc + 1⟩)) ∧
    ((runProgram "t.ba" progLoopThree ["1", "2", "3"] 60).finalSt.map St.output =
      some ["Enter int i: ", "body", "Enter int i: ", "body", "Enter int i: ", "body"] ∧
     (runProgram "t.ba" progLoopThree ["1", "2", "3"] 60).finalSt.map
       (fun s => Store.get? s.vars "i") = some (some ⟨"int", .int 3⟩) ∧
     (runProgram "t.ba" progWhileFalse [] 30).finalSt.map St.output = some ["after"]) := by
  refine ⟨?_, ?_, ?_, by decide, by decide, by decide⟩
  · intro hline hw hic hwc htc hcond
    have hline2 : prog[c.pc]? = some (⟨false, head :: args⟩ : Line) := by
      rw [← List.get?_eq_getElem?]
      exact hline
    constructor
    · intro j hscan
      obtain ⟨hle, ⟨l, hl, hew⟩, hmin⟩ := scanEndwhile_some_spec _ _ _ hscan
      refine ⟨?_, hle, ⟨l, ?_, hew⟩, ?_⟩
      · simp [step, hline2, hw, hic, hwc, htc, hcond, hscan]
      · rw [List.get?_drop] at hl
        rwa [Nat.add_sub_cancel' hle] at hl
      · intro k hk1 hk2 l2 hl2
        have : k - (c.pc + 1) < j - (c.pc + 1) := by omega
        refine hmin (k - (c.pc + 1)) this l2 ?_
        rw [List.get?_drop, Nat.add_sub_cancel' hk1]
        exact hl2
    · intro hscan
      simp [step, hline2, hw, hic, hwc, htc, hcond, hscan]
  · intro hline hw hic hwc htc hcond
    have hline2 : prog[c.pc]? = some (⟨false, head :: args⟩ : Line) := by
      rw [← List.get?_eq_getElem?]
      exact hline
    simp [step, hline2, hw, hic, hwc, htc, hcond]
  · intro wc hline hw hwc
    have hline2 : prog[c.pc]? = some (⟨false, head :: args⟩ : Line) := by
      rw [← List.get?_eq_getElem?]
      exact hline
    constructor
    · intro hcond
      simp [step, hline2, hw, hwc, hcond]
    · intro hcond
      simp [step, hline2, hw, hwc, hcond]

/-- Witness for C2 at concrete configurations. -/
theorem c2_witness :
    step progWhileFalse (initConfig "t.ba" []) = .next ⟨(initConfig "t.ba" []).st, 3⟩ ∧
    step progLoopThree
      ⟨⟨[("i", ⟨"int", .int 0⟩)], none, none, none, "t.ba", ["1", "2", "3"], []⟩, 1⟩ =
      .next ⟨⟨[("i", ⟨"int", .int 0⟩)], none, some ⟨1, ["i", "<", "3"]⟩, none,
        "t.ba", ["1", "2", "3"], []⟩, 2⟩ ∧
    step progLoopThree
      ⟨⟨[("i", ⟨"int", .int 3⟩)], none, some ⟨1, ["i", "<", "3"]⟩, none, "t.ba", [],
        ["x"]⟩, 4⟩ =
      .next ⟨⟨[("i", ⟨"int", .int 3⟩)], none, none, none, "t.ba", [], ["x"]⟩, 5⟩ := by
  refine ⟨?_, ?_, ?_⟩
  · have h := ((c2_while_semantics progWhileFalse (initConfig "t.ba" []) "while"
      ["1", "=", "2"]).1 (by decide) (by decide) rfl rfl rfl (by decide)).1 2 (by decide)
    exact h.1
  · have h := (c2_while_semantics progLoopThree
      ⟨⟨[("i", ⟨"int", .int 0⟩)], none, none, none, "t.ba", ["1", "2", "3"], []⟩, 1⟩
      "while" ["i", "<", "3"]).2.1 (by decide) (by decide) rfl rfl rfl (by decide)
    rw [h]
  · have h := ((c2_while_semantics progLoopThree
      ⟨⟨[("i", ⟨"int", .int 3⟩)], none, some ⟨1, ["i", "<", "3"]⟩, none, "t.ba", [],
        ["x"]⟩, 4⟩ "endwhile" []).2.2.1 ⟨1, ["i", "<", "3"]⟩ (by decide) (by decide)
      rfl).2 (by decide)
    rw [h]

/-! ## C3 -/

/-- **C3**: an error raised by an executed try-section body line is
absorbed in place into `has_error`/`err_msg` and the runner moves to the
next physical line; once `has_error` is set (and before `catch`) every
remaining try-section line is skipped without executing or erroring; the
`catch` header binds its optional name as a `str` variable to the captured
error text (the empty string when no error was raised); and in the
concrete program nothing propagates past `endtry` — the run completes. -/
theorem c3_try_absorbs_errors (prog : List Line) (c : Config)
    (head : String) (args : List String) (tc : TryCtx) :
    (prog.get? c.pc = some ⟨true, head :: args⟩ → pyLower head ∉ controlKeywords →
      c.st.if_ctx = none → c.st.while_ctx = none → c.st.try_ctx = some tc →
      shouldExecTryBody tc = true →
      ∀ e st2 tc2, execStatement c.st (pyLower head) head args (c.pc + 1) = .error (e, st2) →
        st2.try_ctx = some tc2 →
        step prog c = .next ⟨{ st2 with try_ctx := some { tc2 with
          has_error := true, err_msg := some (absorbText e) } }, c.pc + 1⟩) ∧
    (prog.get? c.pc = some ⟨true, head :: args⟩ → pyLower head ∉ controlKeywords →
      c.st.if_ctx = none → c.st.while_ctx = none → c.st.try_ctx = some tc →
      shouldExecTryBody tc = false → shouldExecCatchBody tc = false →
      step prog c = .next ⟨c.st, c.pc + 1⟩) ∧
    (∀ name, prog.get? c.pc = some ⟨false, [head, name]⟩ → pyLower head = "catch" →
      c.st.try_ctx = some tc → tc.in_catch = false → name ≠ "" →
      step prog c = .next ⟨{ c.st with
        try_ctx := some { tc with in_catch := true, err_name := some name },
        vars := c.st.vars.set name ⟨"str", .str (tc.err_msg.getD "")⟩ }, c.pc + 1⟩ ∧
      Store.get? (Store.set c.st.vars name ⟨"str", .str (tc.err_msg.getD "")⟩) name =
        some ⟨"str", .str (tc.err_msg.getD "")⟩) ∧
    ((runProgram "t.ba" progTryDiv [] 30).isOk = true ∧
     (runProgram "t.ba" progTryDiv [] 30).finalSt.map St.output =
       some ["[t.ba:line 2] You cannot divide by 0.", "done"] ∧
     (runProgram "t.ba" progTryDiv [] 30).finalSt.map
       (fun s => Store.get? s.vars "err") =
       some (some ⟨"str", .str "[t.ba:line 2] You cannot divide by 0."⟩)) := by
  refine ⟨?_, ?_, ?_, by decide, by decide, by decide⟩
  · intro hline hk hic hwc htc htb e st2 tc2 hexec htc2
    have hline2 : prog[c.pc]? = some (⟨true, head :: args⟩ : Line) := by
      rw [← List.get?_eq_getElem?]
      exact hline
    simp [step, hline2, hic, hwc, htc, htb, hexec, htc2, hk]
  · intro hline hk hic hwc htc htb hcb
    have hline2 : prog[c.pc]? = some (⟨true, head :: args⟩ : Line) := by
      rw [← List.get?_eq_getElem?]
      exact hline
    simp [step, hline2, hic, hwc, htc, htb, hcb, hk]
  · intro name hline hw htc hcatch hname
    have hline2 : prog[c.pc]? = some (⟨false, [head, name]⟩ : Line) := by
      rw [← List.get?_eq_getElem?]
      exact hline
    refine ⟨?_, store_get_set_self _ _ _⟩
    simp [step, hline2, hw, htc, hcatch, hname, enterCatchIfNeeded]

/-- Witness for C3 along the concrete `progTryDiv` run. -/
theorem c3_witness :
    step progTryDiv ⟨⟨[], none, none, some ⟨false, false, none, none⟩, "t.ba", [], []⟩, 1⟩ =
      .next ⟨⟨[], none, none, some ⟨true, false, none,
        some "[t.ba:line 2] You cannot divide by 0."⟩, "t.ba", [], []⟩, 2⟩ ∧
    step progTryDiv ⟨⟨[], none, none, some ⟨true, false, none,
        some "[t.ba:line 2] You cannot divide by 0."⟩, "t.ba", [], []⟩, 2⟩ =
      .next ⟨⟨[], none, none, some ⟨true, false, none,
        some "[t.ba:line 2] You cannot divide by 0."⟩, "t.ba", [], []⟩, 3⟩ ∧
    step progTryDiv ⟨⟨[], none, none, some ⟨true, false, none,
        some "[t.ba:line 2] You cannot divide by 0."⟩, "t.ba", [], []⟩, 3⟩ =
      .next ⟨⟨[("err", ⟨"str", .str "[t.ba:line 2] You cannot divide by 0."⟩)], none,
        none, some ⟨true, true, some "err",
        some "[t.ba:line 2] You cannot divide by 0."⟩, "t.ba", [], []⟩, 4⟩ := by
  refine ⟨?_, ?_, ?_⟩
  · have h := (c3_try_absorbs_errors progTryDiv
      ⟨⟨[], none, none, some ⟨false, false, none, none⟩, "t.ba", [], []⟩, 1⟩
      "div" ["1", "0"] ⟨false, false, none, none⟩).1 (by decide) (by decide) rfl rfl rfl
      (by decide) (.rt "[t.ba:line 2] You cannot divide by 0.")
      ⟨[], none, none, some ⟨false, false, none, none⟩, "t.ba", [], []⟩
      ⟨false, false, none, none⟩ (by decide) rfl
    rw [h]
    rfl
  · exact (c3_try_absorbs_errors progTryDiv
      ⟨⟨[], none, none, some ⟨true, false, none,
        some "[t.ba:line 2] You cannot divide by 0."⟩, "t.ba", [], []⟩, 2⟩
      "printtext" ["A"] ⟨true, false, none,
        some "[t.ba:line 2] You cannot divide by 0."⟩).2.1 (by decide) (by decide)
      rfl rfl rfl (by decide) (by decide)
  · have h := ((c3_try_absorbs_errors progTryDiv
      ⟨⟨[], none, none, some ⟨true, false, none,
        some "[t.ba:line 2] You cannot divide by 0."⟩, "t.ba", [], []⟩, 3⟩
      "catch" [] ⟨true, false, none,
        some "[t.ba:line 2] You cannot divide by 0."⟩).2.2.1 "err" (by decide)
      (by decide) rfl rfl (by decide)).1
    rw [h]
    rfl

end DeadBasic
